import Mathlib

/-!
Verification development for the ngx-manager repository.

The Python sources are shallowly embedded as Lean definitions:

* subprocess invocations are modelled through explicit environment records
  carrying the exit codes / outcomes the external commands would produce;
* stateful code (the nginx process being up or down, files on disk) is
  modelled by explicit state passing;
* fallible code returning Python result dictionaries is modelled by
  structures with a success flag and an optional error string;
* event lists record which external commands a flow invoked, in order.

Each section names the source file and function it embeds.
-/

namespace NgxMgr

/-! ### Shared result type

Models the Python result dictionaries {'success': ..., 'error': ...}
returned throughout the code base. -/

structure PyResult where
  success : Bool
  error : Option String
  deriving Repr, DecidableEq

/-! ### SSL certificate acquisition — src/nginx_manager/ssl/manager.py

Embeds SSLManager._obtain_with_webroot (lines 109-157) and
SSLManager._obtain_with_nginx_reload (lines 159-221).

The environment record carries the outcome of every external interaction:
whether the webroot probe write succeeds, the exit codes of the acme.sh
issue subprocesses, whether _run_acme_command raises (RuntimeError when
acme.sh is not installed), and the outcome of certificate installation.
The nginx process state is a Bool threaded through the flow; the commands
nginx -s quit / pkill -f nginx leave the daemon stopped, and the command
nginx starts it. -/

inductive Ev
  | probeWebroot
  | webrootIssue
  | standaloneAttempt
  | standaloneIssue
  | nginxQuit
  | nginxPkill
  | nginxStart
  | installCert
  deriving Repr, DecidableEq

structure AcmeEnv where
  webrootWritable : Bool
  webrootExit : Nat
  webrootRaises : Bool
  standaloneExit : Nat
  standaloneRaises : Bool
  standaloneStderr : String
  quitExit : Nat
  installExitOk : Bool
  installRaises : Bool
  deriving Repr

/-- Outcome of one acquisition flow: the Python result dictionary, the
nginx running state after the flow returns, and the external commands
invoked, in order. -/
structure AcqOut where
  result : PyResult
  nginxRunning : Bool
  events : List Ev
  deriving Repr

/-- Embeds SSLManager._obtain_with_nginx_reload (ssl/manager.py 159-221).
The first statement records whether nginx is running (pgrep); when it is,
nginx is stopped (nginx -s quit, falling back to pkill -f nginx on a
non-zero exit) before the standalone issuance, and the nginx start command
is run again afterwards - both on the normal path (source line 192, before
the returncode check) and in the exception handler (source line 215). -/
def obtainWithNginxReload (env : AcmeEnv) (domain : String) (running : Bool) : AcqOut :=
  let was := running
  let stopEvs : List Ev :=
    if was then
      if env.quitExit = 0 then [Ev.nginxQuit] else [Ev.nginxQuit, Ev.nginxPkill]
    else []
  let evs1 := Ev.standaloneAttempt :: stopEvs
  let running1 := if was then false else running
  if env.standaloneRaises then
    -- an exception inside the try block reaches the handler, which
    -- restarts nginx when it was previously running
    { result := { success := false,
                  error := some ("Failed to obtain certificate with nginx reload: error") },
      nginxRunning := if was then true else running1,
      events := evs1 ++ (if was then [Ev.nginxStart] else []) }
  else
    let evs2 := evs1 ++ [Ev.standaloneIssue]
    -- restart nginx if it was running (source line 192, unconditionally
    -- before the returncode check)
    let running2 := if was then true else running1
    let evs3 := evs2 ++ (if was then [Ev.nginxStart] else [])
    if env.standaloneExit ≠ 0 then
      { result := { success := false,
                    error := some ("Failed to obtain certificate: " ++ env.standaloneStderr) },
        nginxRunning := running2,
        events := evs3 }
    else if env.installRaises then
      -- an exception escaping _install_certificate reaches the handler,
      -- which runs the nginx start command again
      { result := { success := false,
                    error := some ("Failed to obtain certificate with nginx reload: error") },
        nginxRunning := if was then true else running2,
        events := evs3 ++ (if was then [Ev.nginxStart] else []) }
    else
      let evs4 := evs3 ++ [Ev.installCert]
      if env.installExitOk then
        { result := { success := true, error := none },
          nginxRunning := running2, events := evs4 }
      else
        { result := { success := false,
                      error := some "Failed to install certificate: error" },
          nginxRunning := running2, events := evs4 }

/-- Embeds SSLManager._obtain_with_webroot (ssl/manager.py 109-157).
A failing probe write into the webroot challenge directory
(PermissionError/OSError) falls through to the standalone flow without
running the webroot issuance subprocess; a webroot issuance subprocess
that exits non-zero also falls through to the standalone flow. -/
def obtainWithWebroot (env : AcmeEnv) (domain : String) (running : Bool) : AcqOut :=
  if ¬ env.webrootWritable then
    let r := obtainWithNginxReload env domain running
    { r with events := Ev.probeWebroot :: r.events }
  else if env.webrootRaises then
    -- RuntimeError from _run_acme_command propagates to the catch-all in
    -- obtain_certificate; neither issuance subprocess runs
    { result := { success := false, error := some "acme.sh not found" },
      nginxRunning := running,
      events := [Ev.probeWebroot] }
  else
    let evs := [Ev.probeWebroot, Ev.webrootIssue]
    if env.webrootExit ≠ 0 then
      let r := obtainWithNginxReload env domain running
      { r with events := evs ++ r.events }
    else if env.installRaises then
      { result := { success := false, error := some "install raised" },
        nginxRunning := running,
        events := evs }
    else
      let evs2 := evs ++ [Ev.installCert]
      if env.installExitOk then
        { result := { success := true, error := none },
          nginxRunning := running, events := evs2 }
      else
        { result := { success := false,
                      error := some "Failed to install certificate: error" },
          nginxRunning := running, events := evs2 }

/-! ### Certificate existence — on-disk layout queries

Embeds SSLManager._certificate_exists (ssl/manager.py 343-346) and
SSLCertificateManager.cert_exists (scripts/cert_manager.py 193-199).
The filesystem is modelled as a partial map from paths to file sizes in
bytes; a path mapped to some n is a file of n bytes, a path mapped to
none does not exist. -/

def FS : Type := String → Option Nat

/-- Embeds SSLCertificateManager.cert_exists (scripts/cert_manager.py
193-199): checks that certsDir/domain/fullchain.cer and
certsDir/domain/domain.key both exist. File sizes are never consulted. -/
def certExistsScript (fs : FS) (certsDir domain : String) : Bool :=
  (fs (certsDir ++ "/" ++ domain ++ "/fullchain.cer")).isSome &&
  (fs (certsDir ++ "/" ++ domain ++ "/" ++ domain ++ ".key")).isSome

/-- Embeds SSLManager._certificate_exists (ssl/manager.py 343-346):
checks only that certsDir/domain/fullchain.pem exists. Neither the
private key nor any file size is consulted. -/
def certificateExistsMgr (fs : FS) (certsDir domain : String) : Bool :=
  (fs (certsDir ++ "/" ++ domain ++ "/fullchain.pem")).isSome

/-- Follows the wording of the specification (section 4.1): true iff the
full-chain file and the private-key file are both present and non-zero
length under certsDir/domain/. Stated over the script layout
(fullchain.cer, domain.key); used only to compare the spec's wording with
the code's behaviour. -/
def certExistsSpecWording (fs : FS) (certsDir domain : String) : Bool :=
  match fs (certsDir ++ "/" ++ domain ++ "/fullchain.cer"),
        fs (certsDir ++ "/" ++ domain ++ "/" ++ domain ++ ".key") with
  | some n, some m => decide (0 < n) && decide (0 < m)
  | _, _ => false

/-! ### Renewal decision — expiry threshold check

Embeds SSLManager._certificate_needs_renewal (ssl/manager.py 348-383)
and SSLCertificateManager.cert_needs_renewal (scripts/cert_manager.py
201-236). The openssl x509 -enddate probe is modelled by a record: its
exit status, whether the marker substring (notAfter= in the manager,
an equals sign in the script) occurs in stdout, whether strptime can
parse the extracted date string, and the parsed expiry instant in seconds
since the epoch. Python's timedelta.days floors, which is Int.fdiv. -/

structure OpensslProbe where
  exitZero : Bool
  hasMarker : Bool
  parseOk : Bool
  expirySecs : Int
  deriving Repr

/-- Python timedelta normalization: the days component of a duration of
s seconds is the floor of s / 86400. -/
def timedeltaDays (secs : Int) : Int := Int.fdiv secs 86400

/-- Embeds SSLManager._certificate_needs_renewal (ssl/manager.py
348-383). A missing full-chain file, a non-zero openssl exit
(subprocess.CalledProcessError) and a strptime ValueError all yield true;
when the expiry parses, the decision is
(expiry - now).days <= days_threshold; when stdout lacks the notAfter=
marker the function falls through to its final return False. -/
def certificateNeedsRenewalMgr (fullchainOnDisk : Bool) (p : OpensslProbe)
    (nowSecs : Int) (daysThreshold : Int) : Bool :=
  if !fullchainOnDisk then true
  else if !p.exitZero then true
  else if p.hasMarker then
    if p.parseOk then decide (timedeltaDays (p.expirySecs - nowSecs) ≤ daysThreshold)
    else true
  else false

/-- Embeds SSLCertificateManager.cert_needs_renewal
(scripts/cert_manager.py 201-236). The whole probe is wrapped in a
catch-all: a non-zero openssl exit, an IndexError from split on a stdout
without an equals sign, and a strptime ValueError all yield true; when
the expiry parses, the decision is
(expiry - now).days <= renewal_days_before_expiry. -/
def certNeedsRenewalScript (fullchainOnDisk : Bool) (p : OpensslProbe)
    (nowSecs : Int) (renewalDays : Int) : Bool :=
  if !fullchainOnDisk then true
  else if !p.exitZero then true
  else if !p.hasMarker then true
  else if !p.parseOk then true
  else if timedeltaDays (p.expirySecs - nowSecs) ≤ renewalDays then true
  else false

/-! ### Nginx reload — src/nginx_manager/core/manager.py 304-341

NginxManager.reload_nginx tries three commands in order and stops at the
first that exits zero; each failing attempt overwrites the last_error
variable. The outcome of each command is an oracle value: exit zero,
exit non-zero with a stderr text (subprocess.CalledProcessError), or the
binary being absent (FileNotFoundError). -/

inductive CmdOutcome
  | exitZero
  | exitErr (stderr : String)
  | notFound
  deriving Repr, DecidableEq

structure ReloadEnv where
  direct : CmdOutcome
  sysctl : CmdOutcome
  legacy : CmdOutcome
  deriving Repr

def reloadCmdDirect : String := "nginx -s reload"
def reloadCmdSysctl : String := "systemctl reload nginx"
def reloadCmdLegacy : String := "service nginx reload"

/-- Stand-in for Python's str(CalledProcessError), used only when the
captured stderr is empty (the e.stderr if e.stderr else str(e) branch). -/
def cpeText (cmd : String) : String :=
  "Command " ++ cmd ++ " returned non-zero exit status"

/-- The last_error value a failing attempt records (source lines 323
and 326). -/
def attemptError (cmd : String) : CmdOutcome → Option String
  | CmdOutcome.exitZero => none
  | CmdOutcome.exitErr s =>
      some (cmd ++ ": " ++ (if s = "" then cpeText cmd else s))
  | CmdOutcome.notFound => some (cmd ++ ": command not found")

structure ReloadOut where
  result : PyResult
  attempted : List String
  deriving Repr

/-- The loop of reload_nginx over the remaining (command, outcome) pairs,
carrying the current last_error; returns the success flag, the final
last_error and the commands attempted. -/
def reloadLoop : List (String × CmdOutcome) → Option String →
    Bool × Option String × List String
  | [], lastError => (false, lastError, [])
  | (cmd, o) :: rest, lastError =>
    match o with
    | CmdOutcome.exitZero => (true, lastError, [cmd])
    | _ =>
      let r := reloadLoop rest (attemptError cmd o)
      (r.1, r.2.1, cmd :: r.2.2)

/-- Embeds NginxManager.reload_nginx (core/manager.py 304-341). -/
def reloadNginx (env : ReloadEnv) : ReloadOut :=
  let cmds := [(reloadCmdDirect, env.direct), (reloadCmdSysctl, env.sysctl),
               (reloadCmdLegacy, env.legacy)]
  let r := reloadLoop cmds none
  if r.1 then
    { result := { success := true, error := none }, attempted := r.2.2 }
  else
    { result := { success := false,
                  error := some ("Failed to reload nginx. Last error: " ++
                    (match r.2.1 with | some e => e | none => "None")) },
      attempted := r.2.2 }

/-- Whether the first character list starts the second. -/
def charsStartWith : List Char → List Char → Bool
  | [], _ => true
  | _ :: _, [] => false
  | p :: ps, c :: cs => (p == c) && charsStartWith ps cs

/-- Whether the pattern occurs contiguously in the character list. -/
def charsOccur (pat : List Char) : List Char → Bool
  | [] => charsStartWith pat []
  | c :: cs => charsStartWith pat (c :: cs) || charsOccur pat cs

/-- Substring occurrence test on strings, used to state what the
aggregated reload error message does and does not mention. -/
def occursIn (pat s : String) : Bool := charsOccur pat.data s.data

/-! ### Issuance retry loop — scripts/cert_manager.py 238-291

SSLCertificateManager.issue_cert runs the acme.sh issue command up to
retry_attempts times, sleeping retry_interval seconds after a failing
attempt only when it is not the last one, and returns False after the
final failure; each subprocess.CalledProcessError is caught inside the
loop, so the function returns rather than raises. The oracle maps the
attempt number (1-based) to whether that invocation exits zero. -/

inductive IssueEv
  | attemptEv (i : Nat)
  | sleepEv (secs : Nat)
  deriving Repr, DecidableEq

/-- Embeds the advanced section of
SSLCertificateManager.get_default_ssl_config (scripts/cert_manager.py
105-112). -/
structure AdvancedCfg where
  renewalCheckInterval : Nat
  renewalDaysBeforeExpiry : Nat
  concurrentCertLimit : Nat
  retryAttempts : Nat
  retryInterval : Nat
  deriving Repr

def defaultAdvancedCfg : AdvancedCfg :=
  { renewalCheckInterval := 24, renewalDaysBeforeExpiry := 30,
    concurrentCertLimit := 3, retryAttempts := 3, retryInterval := 300 }

/-- The for attempt in range(1, retry_attempts + 1) loop of issue_cert:
start is the current attempt number, remaining the attempts left, total
the configured retry_attempts. The sleep runs only when attempt < total
(source line 286). -/
def issueAttempts (oracle : Nat → Bool) (start remaining total interval : Nat) :
    Bool × List IssueEv :=
  match remaining with
  | 0 => (false, [])
  | r + 1 =>
    if oracle start then (true, [IssueEv.attemptEv start])
    else
      let rest := issueAttempts oracle (start + 1) r total interval
      (rest.1,
       IssueEv.attemptEv start ::
         ((if start < total then [IssueEv.sleepEv interval] else []) ++ rest.2))

/-- Embeds SSLCertificateManager.issue_cert (scripts/cert_manager.py
238-291), starting at attempt 1. -/
def issueCert (oracle : Nat → Bool) (cfg : AdvancedCfg) : Bool × List IssueEv :=
  issueAttempts oracle 1 cfg.retryAttempts cfg.retryAttempts cfg.retryInterval

def countAttemptEvs (evs : List IssueEv) : Nat :=
  (evs.filter (fun e => match e with | IssueEv.attemptEv _ => true | _ => false)).length

def countSleepEvs (evs : List IssueEv) : Nat :=
  (evs.filter (fun e => match e with | IssueEv.sleepEv _ => true | _ => false)).length

/-! ### add_site — src/nginx_manager/core/manager.py 94-155

NginxManager.add_site writes the site configuration file, then obtains a
certificate when ssl is requested, then tests the nginx configuration,
then reloads. A failing certificate acquisition or a failing
configuration test unlinks the just-written file before returning; a
failing reload leaves it in place. -/

structure AddSiteEnv where
  confOnDiskBefore : Bool
  obtainOk : Bool
  testOk : Bool
  reloadOk : Bool
  deriving Repr

structure AddSiteOut where
  success : Bool
  confOnDisk : Bool
  wrote : Bool
  deriving Repr, DecidableEq

/-- Embeds NginxManager.add_site (core/manager.py 94-155). -/
def addSite (env : AddSiteEnv) (ssl force : Bool) : AddSiteOut :=
  if env.confOnDiskBefore && !force then
    { success := false, confOnDisk := true, wrote := false }
  else
    -- the configuration file is generated and written here
    if ssl && !env.obtainOk then
      -- SSL acquisition failed: config_file.unlink(missing_ok=True)
      { success := false, confOnDisk := false, wrote := true }
    else if !env.testOk then
      -- configuration test failed: config_file.unlink(missing_ok=True)
      { success := false, confOnDisk := false, wrote := true }
    else if !env.reloadOk then
      { success := false, confOnDisk := true, wrote := true }
    else
      { success := true, confOnDisk := true, wrote := true }

/-! ### The two-phase generate flow — src/nginx_manager/cli.py 329-488

The generate command parses the vhost list, obtains certificates for the
primary domains of the SSL-enabled sites, downgrades the ssl flag of the
sites whose primary domain failed (recovering the domain from the
accumulated error string by error.split(chr 58)[0]), writes one
configuration file per site, and runs the nginx configuration test.
No nginx reload command appears anywhere in this flow. After a
successful test, when SSL certificates were processed, the flow calls
manager.setup_auto_renewal - a method NginxManager does not define - so
the resulting AttributeError is caught by the outer handler and the run
exits 1.

YAML loading is out of scope (spec section 1); the flow starts from the
already-parsed vhost entries. An entry models a Python dict: isDict and
hasName cover the isinstance / key-presence guard of source line 366. -/

structure Vhost where
  isDict : Bool
  hasName : Bool
  name : String
  domains : List String
  ssl : Bool
  vtype : Option String
  upstream : Option String
  deriving Repr

/-- The per-site record built at source lines 382-387 and later passed to
ConfigGenerator.generate_site_config; the rendered file content is this
record, with the template treated as an opaque renderer of it. -/
structure VConf where
  name : String
  domain : String
  backend : Option String
  ssl : Bool
  deriving Repr, DecidableEq

/-- Python truthiness of vhost.get(upstream-key): a missing key and an
empty string are both falsy. -/
def upstreamTruthy : Option String → Bool
  | none => false
  | some s => !(s == "")

/-- The record appended to vhost_configs for one valid vhost entry
(source lines 370-387). -/
def mkConf (v : Vhost) : VConf :=
  { name := v.name,
    domain := v.domains.headD "",
    backend := if v.vtype == some "proxy" && upstreamTruthy v.upstream
               then v.upstream else none,
    ssl := v.ssl }

/-- The first pass over the vhost entries (source lines 365-391):
entries that are not dicts or lack a name, and entries with an empty
domains list, are skipped. -/
def parseVhosts : List Vhost → List VConf
  | [] => []
  | v :: rest =>
    if v.isDict && v.hasName && !v.domains.isEmpty then
      mkConf v :: parseVhosts rest
    else parseVhosts rest

/-- The ssl_domains list collected in the same pass: the primary domain
of every parsed site whose ssl flag is set, in order. -/
def sslDomainsOf (configs : List VConf) : List String :=
  (configs.filter (fun c => c.ssl)).map (fun c => c.domain)

structure GenEnv where
  obtainOk : String → Bool
  obtainErr : String → String
  testOk : Bool
  noSsl : Bool
  autoConfirm : Bool
  stdinTty : Bool
  userConfirms : Bool

/-- The accumulated ssl_errors strings, one per failing domain, formatted
domain: error (source line 406). -/
def sslErrorsOf (env : GenEnv) (doms : List String) : List String :=
  (doms.filter (fun d => !env.obtainOk d)).map
    (fun d => d ++ ": " ++ env.obtainErr d)

/-- Characters of a string up to (excluding) the first colon; the whole
string when no colon occurs. -/
def takeUntilColon : List Char → List Char
  | [] => []
  | c :: cs => if c = ':' then [] else c :: takeUntilColon cs

/-- Python error.split(chr 58)[0], the code's way of recovering a domain
from an accumulated error string (source line 429): the field before the
first colon, or the whole string when no colon occurs. -/
def headBeforeColon (s : String) : String := String.mk (takeUntilColon s.data)

def failedDomainsOf (errs : List String) : List String :=
  errs.map headBeforeColon

/-- The downgrade of source lines 430-433: a site whose primary domain is
in failed_domains has its ssl flag cleared. -/
def downgrade (failed : List String) (c : VConf) : VConf :=
  if c.domain ∈ failed then { c with ssl := false } else c

structure GenOut where
  written : List (String × VConf)
  obtainCalls : List String
  testRun : Bool
  reloadInvoked : Bool
  exitCode : Nat
  deriving Repr

/-- Phase 2 of generate (source lines 443-488): write one file per site
record, run the configuration test, exit 1 when it fails; on success,
when the SSL branch ran, the setup_auto_renewal AttributeError makes the
run exit 1 as well. No branch invokes a reload. -/
def genPhase2 (env : GenEnv) (configs : List VConf) (obtained : List String)
    (sslBranchRan : Bool) : GenOut :=
  let written := configs.map (fun c => (c.name ++ ".conf", c))
  if !env.testOk then
    { written := written, obtainCalls := obtained, testRun := true,
      reloadInvoked := false, exitCode := 1 }
  else if sslBranchRan then
    -- manager.setup_auto_renewal does not exist on NginxManager: the
    -- AttributeError reaches the outer handler and the run exits 1
    { written := written, obtainCalls := obtained, testRun := true,
      reloadInvoked := false, exitCode := 1 }
  else
    { written := written, obtainCalls := obtained, testRun := true,
      reloadInvoked := false, exitCode := 0 }

/-- Embeds the generate command (cli.py 329-488) from the parsed vhost
entries onward. -/
def generate (env : GenEnv) (vhosts : List Vhost) : GenOut :=
  if !(sslDomainsOf (parseVhosts vhosts)).isEmpty && !env.noSsl then
    if !(sslErrorsOf env (sslDomainsOf (parseVhosts vhosts))).isEmpty &&
        !env.autoConfirm && env.stdinTty && !env.userConfirms then
      -- interactive mode, user declined: sys.exit(1) before Phase 2
      { written := [], obtainCalls := sslDomainsOf (parseVhosts vhosts),
        testRun := false, reloadInvoked := false, exitCode := 1 }
    else
      genPhase2 env
        ((parseVhosts vhosts).map
          (downgrade (failedDomainsOf
            (sslErrorsOf env (sslDomainsOf (parseVhosts vhosts))))))
        (sslDomainsOf (parseVhosts vhosts)) true
  else if !(sslDomainsOf (parseVhosts vhosts)).isEmpty && env.noSsl then
    genPhase2 env
      ((parseVhosts vhosts).map
        (fun c => if c.ssl then { c with ssl := false } else c))
      [] false
  else
    genPhase2 env (parseVhosts vhosts) [] false

/-- The site records rendered and written for the site named n, in write
order (the on-disk file for n is the last of these). -/
def renderedFor (out : GenOut) (n : String) : List VConf :=
  (out.written.map Prod.snd).filter (fun c => c.name == n)

/-!
## Theorems
-/

/-- The standalone flow always records its attempt as the first event. -/
lemma standaloneAttempt_mem_reload (env : AcmeEnv) (domain : String) (running : Bool) :
    Ev.standaloneAttempt ∈ (obtainWithNginxReload env domain running).events := by
  unfold obtainWithNginxReload
  split_ifs <;> simp

/-- The standalone flow never runs the webroot issuance subprocess. -/
lemma webrootIssue_not_mem_reload (env : AcmeEnv) (domain : String) (running : Bool) :
    Ev.webrootIssue ∉ (obtainWithNginxReload env domain running).events := by
  unfold obtainWithNginxReload
  split_ifs <;> simp

/-- C2: for every domain, if nginx was running before the standalone
challenge attempt begins, it is running again after the attempt
completes, whether the acme issuance succeeded, exited non-zero, or an
exception was raised during the attempt. -/
theorem c2_guaranteed_restart (env : AcmeEnv) (domain : String) (running : Bool)
    (h : running = true) :
    (obtainWithNginxReload env domain running).nginxRunning = true := by
  subst h
  unfold obtainWithNginxReload
  split_ifs <;> simp

/-- Witness for c2_guaranteed_restart at a concrete environment in which
the standalone issuance raises. -/
theorem c2_guaranteed_restart_witness :
    (obtainWithNginxReload
      { webrootWritable := false, webrootExit := 0, webrootRaises := false,
        standaloneExit := 1, standaloneRaises := true, standaloneStderr := "err",
        quitExit := 0, installExitOk := true, installRaises := false }
      "example.com" true).nginxRunning = true :=
  c2_guaranteed_restart _ "example.com" true rfl

/-- C7: for every domain, a non-writable webroot challenge directory
means the webroot issuance subprocess is never invoked and the standalone
challenge is attempted; a webroot issuance subprocess exiting non-zero
also leads to a standalone attempt. -/
theorem c7_webroot_fallback (env : AcmeEnv) (domain : String) (running : Bool) :
    (env.webrootWritable = false →
      Ev.webrootIssue ∉ (obtainWithWebroot env domain running).events ∧
      Ev.standaloneAttempt ∈ (obtainWithWebroot env domain running).events) ∧
    (env.webrootWritable = true → env.webrootRaises = false → env.webrootExit ≠ 0 →
      Ev.standaloneAttempt ∈ (obtainWithWebroot env domain running).events) := by
  constructor
  · intro hw
    unfold obtainWithWebroot
    simp only [hw]
    constructor
    · simp [webrootIssue_not_mem_reload env domain running]
    · simp [standaloneAttempt_mem_reload env domain running]
  · intro hw hr he
    unfold obtainWithWebroot
    simp [hw, hr, he, standaloneAttempt_mem_reload env domain running]

/-- Witness for c7_webroot_fallback: both parts applied at concrete
environments (a non-writable webroot, and a writable webroot whose
issuance exits 2). -/
theorem c7_webroot_fallback_witness :
    (Ev.webrootIssue ∉ (obtainWithWebroot
        { webrootWritable := false, webrootExit := 0, webrootRaises := false,
          standaloneExit := 0, standaloneRaises := false, standaloneStderr := "",
          quitExit := 0, installExitOk := true, installRaises := false }
        "example.com" true).events ∧
     Ev.standaloneAttempt ∈ (obtainWithWebroot
        { webrootWritable := false, webrootExit := 0, webrootRaises := false,
          standaloneExit := 0, standaloneRaises := false, standaloneStderr := "",
          quitExit := 0, installExitOk := true, installRaises := false }
        "example.com" true).events) ∧
    Ev.standaloneAttempt ∈ (obtainWithWebroot
        { webrootWritable := true, webrootExit := 2, webrootRaises := false,
          standaloneExit := 0, standaloneRaises := false, standaloneStderr := "",
          quitExit := 0, installExitOk := true, installRaises := false }
        "example.com" true).events :=
  ⟨(c7_webroot_fallback _ "example.com" true).1 rfl,
   (c7_webroot_fallback _ "example.com" true).2 rfl rfl (by decide)⟩

/-- C3 counterexample: a filesystem on which both certificate files exist
with zero length makes cert_exists return true, though the claim says
partial material (an empty file) is treated as absent; moreover
SSLManager._certificate_exists returns true when only the full-chain
file exists and the private key is missing entirely. -/
theorem c3_counterexample :
    (certExistsScript
        (fun p => if p = "certs/example.com/fullchain.cer" then some 0
                  else if p = "certs/example.com/example.com.key" then some 0
                  else none)
        "certs" "example.com" = true ∧
     certExistsSpecWording
        (fun p => if p = "certs/example.com/fullchain.cer" then some 0
                  else if p = "certs/example.com/example.com.key" then some 0
                  else none)
        "certs" "example.com" = false) ∧
    certificateExistsMgr
        (fun p => if p = "certs/example.com/fullchain.pem" then some 100 else none)
        "certs" "example.com" = true := by
  refine ⟨⟨?_, ?_⟩, ?_⟩ <;> decide

/-- C3 amended: the existence checks consult only file presence, never
file size; cert_exists (script) requires both the full-chain and the
key file to be present, while SSLManager._certificate_exists requires
only the full-chain file. -/
theorem c3_exists_presence_only (fs : FS) (certsDir domain : String) :
    (certExistsScript fs certsDir domain = true ↔
      (fs (certsDir ++ "/" ++ domain ++ "/fullchain.cer")).isSome = true ∧
      (fs (certsDir ++ "/" ++ domain ++ "/" ++ domain ++ ".key")).isSome = true) ∧
    (certificateExistsMgr fs certsDir domain = true ↔
      (fs (certsDir ++ "/" ++ domain ++ "/fullchain.pem")).isSome = true) := by
  constructor
  · simp [certExistsScript]
  · simp [certificateExistsMgr]

/-- C5: a certificate whose notAfter instant is exactly now plus T days
is decided as needing renewal by both implementations: the comparison
(notAfter - now).days <= T is inclusive at the boundary. -/
theorem c5_threshold_inclusive (p : OpensslProbe) (nowSecs T : Int)
    (h1 : p.exitZero = true) (h2 : p.hasMarker = true) (h3 : p.parseOk = true)
    (h4 : p.expirySecs = nowSecs + T * 86400) :
    certificateNeedsRenewalMgr true p nowSecs T = true ∧
    certNeedsRenewalScript true p nowSecs T = true := by
  have hd : timedeltaDays (p.expirySecs - nowSecs) = T := by
    rw [h4, add_sub_cancel_left]
    exact Int.mul_fdiv_cancel T (by norm_num)
  constructor
  · simp [certificateNeedsRenewalMgr, h1, h2, h3, hd]
  · simp [certNeedsRenewalScript, h1, h2, h3, hd]

/-- Witness for c5_threshold_inclusive with now = 1000 and T = 30. -/
theorem c5_threshold_inclusive_witness :
    certificateNeedsRenewalMgr true
      { exitZero := true, hasMarker := true, parseOk := true,
        expirySecs := 1000 + 30 * 86400 } 1000 30 = true ∧
    certNeedsRenewalScript true
      { exitZero := true, hasMarker := true, parseOk := true,
        expirySecs := 1000 + 30 * 86400 } 1000 30 = true :=
  c5_threshold_inclusive _ 1000 30 rfl rfl rfl rfl

/-- C6: when the full-chain file exists but the expiry cannot be
obtained - the openssl subprocess exits non-zero, or the extracted date
string fails to parse - both implementations decide needs renewal
(true), never valid. -/
theorem c6_parse_failure_renews (p : OpensslProbe) (nowSecs T : Int)
    (h : p.exitZero = false ∨ (p.hasMarker = true ∧ p.parseOk = false)) :
    certificateNeedsRenewalMgr true p nowSecs T = true ∧
    certNeedsRenewalScript true p nowSecs T = true := by
  rcases h with h | ⟨h1, h2⟩
  · constructor <;> simp [certificateNeedsRenewalMgr, certNeedsRenewalScript, h]
  · constructor <;>
      · cases hz : p.exitZero <;>
          simp [certificateNeedsRenewalMgr, certNeedsRenewalScript, hz, h1, h2]

/-- Witness for c6_parse_failure_renews: a subprocess exiting non-zero. -/
theorem c6_parse_failure_renews_witness :
    certificateNeedsRenewalMgr true
      { exitZero := false, hasMarker := false, parseOk := false, expirySecs := 0 }
      0 30 = true ∧
    certNeedsRenewalScript true
      { exitZero := false, hasMarker := false, parseOk := false, expirySecs := 0 }
      0 30 = true :=
  c6_parse_failure_renews _ 0 30 (Or.inl rfl)

/-- C10: when add_site gets past the already-exists guard and writes the
configuration file, a failed SSL acquisition (with ssl requested) or a
failed configuration test leaves no configuration file on disk: the
written file is unlinked before the failure is returned. -/
theorem c10_add_site_atomic (env : AddSiteEnv) (ssl force : Bool)
    (hwrite : env.confOnDiskBefore = false ∨ force = true)
    (hfail : (ssl = true ∧ env.obtainOk = false) ∨ env.testOk = false) :
    addSite env ssl force =
      { success := false, confOnDisk := false, wrote := true } := by
  have hguard : (env.confOnDiskBefore && !force) = false := by
    rcases hwrite with h | h <;> simp [h]
  rcases hfail with ⟨h1, h2⟩ | h
  · simp [addSite, hguard, h1, h2]
  · cases hb : (ssl && !env.obtainOk) <;> simp [addSite, hguard, hb, h]

/-- Witness for c10_add_site_atomic: ssl requested, acquisition fails. -/
theorem c10_add_site_atomic_witness :
    addSite { confOnDiskBefore := false, obtainOk := false, testOk := true,
              reloadOk := true } true false =
      { success := false, confOnDisk := false, wrote := true } :=
  c10_add_site_atomic _ true false (Or.inl rfl) (Or.inl ⟨rfl, rfl⟩)

/-- C4 counterexample: with all three reload commands failing with
distinct stderr texts, the returned error names only the last attempted
command (service nginx reload) and its stderr; it does not contain the
descriptions of the first two attempted commands, contradicting the
claim that the error describes all attempted commands. -/
theorem c4_counterexample :
    (reloadNginx
      { direct := CmdOutcome.exitErr "boom1", sysctl := CmdOutcome.exitErr "boom2",
        legacy := CmdOutcome.exitErr "boom3" }).result.error =
      some "Failed to reload nginx. Last error: service nginx reload: boom3" ∧
    (reloadNginx
      { direct := CmdOutcome.exitErr "boom1", sysctl := CmdOutcome.exitErr "boom2",
        legacy := CmdOutcome.exitErr "boom3" }).attempted =
      [reloadCmdDirect, reloadCmdSysctl, reloadCmdLegacy] ∧
    occursIn reloadCmdLegacy
      "Failed to reload nginx. Last error: service nginx reload: boom3" = true ∧
    occursIn "boom3"
      "Failed to reload nginx. Last error: service nginx reload: boom3" = true ∧
    occursIn reloadCmdDirect
      "Failed to reload nginx. Last error: service nginx reload: boom3" = false ∧
    occursIn reloadCmdSysctl
      "Failed to reload nginx. Last error: service nginx reload: boom3" = false ∧
    occursIn "boom1"
      "Failed to reload nginx. Last error: service nginx reload: boom3" = false ∧
    occursIn "boom2"
      "Failed to reload nginx. Last error: service nginx reload: boom3" = false := by
  refine ⟨?_, ?_, ?_, ?_, ?_, ?_, ?_, ?_⟩ <;> decide

/-- C4 amended: reload tries the direct nginx signal, then systemctl,
then the legacy service script, in that order, succeeding at the first
command that exits zero; when all three fail, the returned error carries
the last attempt's command and error text only, not a description of all
attempted commands. -/
theorem c4_reload_order_last_error (env : ReloadEnv) :
    (env.direct = CmdOutcome.exitZero →
      reloadNginx env =
        { result := { success := true, error := none },
          attempted := [reloadCmdDirect] }) ∧
    (env.direct ≠ CmdOutcome.exitZero → env.sysctl = CmdOutcome.exitZero →
      reloadNginx env =
        { result := { success := true, error := none },
          attempted := [reloadCmdDirect, reloadCmdSysctl] }) ∧
    (env.direct ≠ CmdOutcome.exitZero → env.sysctl ≠ CmdOutcome.exitZero →
      env.legacy = CmdOutcome.exitZero →
      reloadNginx env =
        { result := { success := true, error := none },
          attempted := [reloadCmdDirect, reloadCmdSysctl, reloadCmdLegacy] }) ∧
    (∀ e3, env.direct ≠ CmdOutcome.exitZero → env.sysctl ≠ CmdOutcome.exitZero →
      env.legacy = CmdOutcome.exitErr e3 → e3 ≠ "" →
      reloadNginx env =
        { result := { success := false,
                      error := some ("Failed to reload nginx. Last error: " ++
                        reloadCmdLegacy ++ ": " ++ e3) },
          attempted := [reloadCmdDirect, reloadCmdSysctl, reloadCmdLegacy] }) ∧
    (env.direct ≠ CmdOutcome.exitZero → env.sysctl ≠ CmdOutcome.exitZero →
      env.legacy = CmdOutcome.notFound →
      reloadNginx env =
        { result := { success := false,
                      error := some ("Failed to reload nginx. Last error: " ++
                        reloadCmdLegacy ++ ": command not found") },
          attempted := [reloadCmdDirect, reloadCmdSysctl, reloadCmdLegacy] }) := by
  obtain ⟨d, s, l⟩ := env
  refine ⟨?_, ?_, ?_, ?_, ?_⟩ <;>
    · intros
      cases d <;> cases s <;> cases l <;>
        simp_all [reloadNginx, reloadLoop, attemptError, String.append_assoc]

/-- Witness for c4_reload_order_last_error: the all-fail conjunct at the
counterexample environment, and the first-success conjunct at an
environment whose direct reload succeeds. -/
theorem c4_reload_order_last_error_witness :
    reloadNginx
      { direct := CmdOutcome.exitErr "boom1", sysctl := CmdOutcome.exitErr "boom2",
        legacy := CmdOutcome.exitErr "boom3" } =
      { result := { success := false,
                    error := some ("Failed to reload nginx. Last error: " ++
                      reloadCmdLegacy ++ ": " ++ "boom3") },
        attempted := [reloadCmdDirect, reloadCmdSysctl, reloadCmdLegacy] } ∧
    reloadNginx
      { direct := CmdOutcome.exitZero, sysctl := CmdOutcome.exitErr "x",
        legacy := CmdOutcome.exitErr "y" } =
      { result := { success := true, error := none },
        attempted := [reloadCmdDirect] } :=
  ⟨(c4_reload_order_last_error _).2.2.2.1 "boom3" (by decide) (by decide) rfl
      (by decide),
   (c4_reload_order_last_error _).1 rfl⟩

lemma countAttemptEvs_cons_attempt (i : Nat) (l : List IssueEv) :
    countAttemptEvs (IssueEv.attemptEv i :: l) = countAttemptEvs l + 1 := by
  simp [countAttemptEvs]

lemma countAttemptEvs_cons_sleep (s : Nat) (l : List IssueEv) :
    countAttemptEvs (IssueEv.sleepEv s :: l) = countAttemptEvs l := by
  simp [countAttemptEvs]

lemma countSleepEvs_cons_attempt (i : Nat) (l : List IssueEv) :
    countSleepEvs (IssueEv.attemptEv i :: l) = countSleepEvs l := by
  simp [countSleepEvs]

lemma countSleepEvs_cons_sleep (s : Nat) (l : List IssueEv) :
    countSleepEvs (IssueEv.sleepEv s :: l) = countSleepEvs l + 1 := by
  simp [countSleepEvs]

lemma issueAttempts_zero (oracle : Nat → Bool) (start total interval : Nat) :
    issueAttempts oracle start 0 total interval = (false, []) := rfl

lemma issueAttempts_succ (oracle : Nat → Bool) (start r total interval : Nat) :
    issueAttempts oracle start (r + 1) total interval =
      if oracle start then (true, [IssueEv.attemptEv start])
      else
        ((issueAttempts oracle (start + 1) r total interval).1,
         IssueEv.attemptEv start ::
           ((if start < total then [IssueEv.sleepEv interval] else []) ++
            (issueAttempts oracle (start + 1) r total interval).2)) := rfl

/-- The retry loop of issue_cert under an oracle on which every attempt
fails, running attempts start..total: it returns False, performs one
attempt event per remaining iteration, sleeps after every attempt except
the final one with the configured interval, and ends on an attempt. -/
lemma issueAttempts_all_fail (oracle : Nat → Bool) (interval : Nat)
    (hfail : ∀ i, oracle i = false) :
    ∀ remaining start total, start + remaining = total + 1 →
      (issueAttempts oracle start remaining total interval).1 = false ∧
      countAttemptEvs (issueAttempts oracle start remaining total interval).2
        = remaining ∧
      countSleepEvs (issueAttempts oracle start remaining total interval).2
        = remaining - 1 ∧
      (1 ≤ remaining →
        (issueAttempts oracle start remaining total interval).2.getLast?
          = some (IssueEv.attemptEv total)) ∧
      (∀ s, IssueEv.sleepEv s ∈ (issueAttempts oracle start remaining total interval).2
        → s = interval) := by
  intro remaining
  induction remaining with
  | zero =>
    intro start total _
    simp [issueAttempts, countAttemptEvs, countSleepEvs]
  | succ r ih =>
    intro start total htot
    cases r with
    | zero =>
      have hst : start = total := by omega
      have hlt : ¬ start < total := by omega
      subst hst
      rw [issueAttempts_succ]
      simp [hfail, hlt, issueAttempts_zero, countAttemptEvs, countSleepEvs]
    | succ r' =>
      have hlt : start < total := by omega
      have htot2 : (start + 1) + (r' + 1) = total + 1 := by omega
      obtain ⟨ih1, ih2, ih3, ih4, ih5⟩ := ih (start + 1) total htot2
      have hne : (issueAttempts oracle (start + 1) (r' + 1) total interval).2 ≠ [] := by
        intro hnil
        rw [hnil] at ih2
        simp [countAttemptEvs] at ih2
      rw [issueAttempts_succ]
      simp only [hfail, Bool.false_eq_true, if_false, hlt, if_true,
        List.singleton_append]
      refine ⟨ih1, ?_, ?_, ?_, ?_⟩
      · rw [countAttemptEvs_cons_attempt, countAttemptEvs_cons_sleep, ih2]
      · rw [countSleepEvs_cons_attempt, countSleepEvs_cons_sleep, ih3]
        omega
      · intro _
        rw [List.getLast?_cons_cons]
        rcases hl : (issueAttempts oracle (start + 1) (r' + 1) total interval).2 with
          _ | ⟨e, l⟩
        · exact absurd hl hne
        · rw [List.getLast?_cons_cons]
          have h4 := ih4 (by omega)
          rw [hl] at h4
          exact h4
      · intro s hs
        simp only [List.mem_cons] at hs
        rcases hs with h | h | h
        · exact absurd h (by simp)
        · simpa using h
        · exact ih5 s h

/-- C9: when every issuance attempt exits non-zero, issue_cert retries up
to the configured attempt count, with the configured fixed delay slept
between consecutive attempts but not after the final one, and returns
failure for the domain without raising; the default configuration is 3
attempts and a 300-second interval. -/
theorem c9_retry_policy (oracle : Nat → Bool) (cfg : AdvancedCfg)
    (hfail : ∀ i, oracle i = false) (hpos : 1 ≤ cfg.retryAttempts) :
    (issueCert oracle cfg).1 = false ∧
    countAttemptEvs (issueCert oracle cfg).2 = cfg.retryAttempts ∧
    countSleepEvs (issueCert oracle cfg).2 = cfg.retryAttempts - 1 ∧
    (issueCert oracle cfg).2.getLast?
      = some (IssueEv.attemptEv cfg.retryAttempts) ∧
    (∀ s, IssueEv.sleepEv s ∈ (issueCert oracle cfg).2
      → s = cfg.retryInterval) ∧
    defaultAdvancedCfg.retryAttempts = 3 ∧
    defaultAdvancedCfg.retryInterval = 300 := by
  obtain ⟨h1, h2, h3, h4, h5⟩ :=
    issueAttempts_all_fail oracle cfg.retryInterval hfail cfg.retryAttempts 1
      cfg.retryAttempts (by omega)
  exact ⟨h1, h2, h3, h4 hpos, h5, rfl, rfl⟩

/-- Witness for c9_retry_policy at the default configuration with an
always-failing oracle: three attempts, two 300-second sleeps, no sleep
after the third attempt, and an overall failure result. -/
theorem c9_retry_policy_witness :
    (issueCert (fun _ => false) defaultAdvancedCfg).1 = false ∧
    countAttemptEvs (issueCert (fun _ => false) defaultAdvancedCfg).2 = 3 ∧
    countSleepEvs (issueCert (fun _ => false) defaultAdvancedCfg).2 = 2 ∧
    (issueCert (fun _ => false) defaultAdvancedCfg).2.getLast?
      = some (IssueEv.attemptEv 3) ∧
    (∀ s, IssueEv.sleepEv s ∈ (issueCert (fun _ => false) defaultAdvancedCfg).2
      → s = 300) := by
  obtain ⟨h1, h2, h3, h4, h5, _, _⟩ :=
    c9_retry_policy (fun _ => false) defaultAdvancedCfg (fun _ => rfl) (by decide)
  exact ⟨h1, h2, h3, h4, h5⟩

lemma genPhase2_testRun (env : GenEnv) (configs : List VConf)
    (obtained : List String) (b : Bool) :
    (genPhase2 env configs obtained b).testRun = true := by
  unfold genPhase2
  split_ifs <;> rfl

lemma genPhase2_reload (env : GenEnv) (configs : List VConf)
    (obtained : List String) (b : Bool) :
    (genPhase2 env configs obtained b).reloadInvoked = false := by
  unfold genPhase2
  split_ifs <;> rfl

lemma genPhase2_written (env : GenEnv) (configs : List VConf)
    (obtained : List String) (b : Bool) :
    (genPhase2 env configs obtained b).written =
      configs.map (fun c => (c.name ++ ".conf", c)) := by
  unfold genPhase2
  split_ifs <;> rfl

lemma genPhase2_exit_of_test_failed (env : GenEnv) (configs : List VConf)
    (obtained : List String) (b : Bool) (h : env.testOk = false) :
    (genPhase2 env configs obtained b).exitCode = 1 := by
  unfold genPhase2
  simp [h]

/-- C8: when the generate run reaches the Phase-2 configuration test and
the test fails, the run exits with failure, and no nginx reload command
is ever invoked by the flow. -/
theorem c8_test_failure_fatal (env : GenEnv) (vhosts : List Vhost)
    (hrun : (generate env vhosts).testRun = true) (hfail : env.testOk = false) :
    (generate env vhosts).exitCode = 1 ∧
    (generate env vhosts).reloadInvoked = false := by
  unfold generate at *
  split_ifs at * <;>
    exact ⟨genPhase2_exit_of_test_failed _ _ _ _ hfail, genPhase2_reload _ _ _ _⟩

/-- Witness for c8_test_failure_fatal: one static site, a failing
configuration test. -/
theorem c8_test_failure_fatal_witness :
    (generate
      { obtainOk := fun _ => true, obtainErr := fun _ => "", testOk := false,
        noSsl := false, autoConfirm := true, stdinTty := false,
        userConfirms := true }
      [{ isDict := true, hasName := true, name := "site",
         domains := ["example.com"], ssl := false, vtype := none,
         upstream := none }]).exitCode = 1 ∧
    (generate
      { obtainOk := fun _ => true, obtainErr := fun _ => "", testOk := false,
        noSsl := false, autoConfirm := true, stdinTty := false,
        userConfirms := true }
      [{ isDict := true, hasName := true, name := "site",
         domains := ["example.com"], ssl := false, vtype := none,
         upstream := none }]).reloadInvoked = false :=
  c8_test_failure_fatal _ _ rfl rfl

lemma downgrade_name (failed : List String) (c : VConf) :
    (downgrade failed c).name = c.name := by
  unfold downgrade
  split <;> rfl

lemma mem_parseVhosts {v : Vhost} {l : List Vhost} (hm : v ∈ l)
    (h1 : v.isDict = true) (h2 : v.hasName = true)
    (h3 : v.domains.isEmpty = false) :
    mkConf v ∈ parseVhosts l := by
  induction l with
  | nil => cases hm
  | cons a rest ih =>
    rcases List.mem_cons.mp hm with heq | hm2
    · subst heq
      simp only [parseVhosts, h1, h2, h3]
      simp
    · by_cases hc : (a.isDict && a.hasName && !a.domains.isEmpty) = true
      · simp only [parseVhosts, hc, if_true]
        exact List.mem_cons_of_mem _ (ih hm2)
      · simp only [parseVhosts, hc, if_false]
        exact ih hm2

lemma failedDomainsOf_sslErrorsOf (env : GenEnv) (doms : List String)
    (hs : ∀ d ∈ doms, headBeforeColon (d ++ ": " ++ env.obtainErr d) = d) :
    failedDomainsOf (sslErrorsOf env doms) =
      doms.filter (fun d => !env.obtainOk d) := by
  unfold failedDomainsOf sslErrorsOf
  rw [List.map_map]
  have hcg : ∀ d ∈ doms.filter (fun d => !env.obtainOk d),
      (headBeforeColon ∘ fun d => d ++ ": " ++ env.obtainErr d) d = id d := by
    intro d hd
    exact hs d (List.mem_of_mem_filter hd)
  rw [List.map_congr_left hcg, List.map_id]

lemma renderedFor_genPhase2 (env : GenEnv) (configs : List VConf)
    (obtained : List String) (b : Bool) (n : String) :
    renderedFor (genPhase2 env configs obtained b) n =
      configs.filter (fun c => c.name == n) := by
  unfold renderedFor
  rw [genPhase2_written, List.map_map]
  have hsnd : (Prod.snd ∘ fun c : VConf => (c.name ++ ".conf", c)) = id := rfl
  rw [hsnd, List.map_id]

def siteA : Vhost :=
  { isDict := true, hasName := true, name := "a", domains := ["a.example"],
    ssl := true, vtype := none, upstream := none }

def siteB : Vhost :=
  { isDict := true, hasName := true, name := "b", domains := ["b.example"],
    ssl := true, vtype := none, upstream := none }

def envAB : GenEnv :=
  { obtainOk := fun d => d == "b.example", obtainErr := fun _ => "boom",
    testOk := true, noSsl := false, autoConfirm := true, stdinTty := false,
    userConfirms := true }

/-- C1 counterexample: two SSL sites where issuance fails for a.example
and succeeds for b.example. The rendered configuration for site b keeps
ssl true and the one for site a has ssl false, but the generate flow
invokes no nginx reload at all (there is no reload call anywhere in the
flow), so the claim's reload conjunct is false at this input. -/
theorem c1_counterexample :
    renderedFor (generate envAB [siteA, siteB]) "a" =
      [{ name := "a", domain := "a.example", backend := none, ssl := false }] ∧
    renderedFor (generate envAB [siteA, siteB]) "b" =
      [{ name := "b", domain := "b.example", backend := none, ssl := true }] ∧
    (generate envAB [siteA, siteB]).testRun = true ∧
    (generate envAB [siteA, siteB]).reloadInvoked = false := by
  refine ⟨?_, ?_, ?_, ?_⟩ <;> decide

/-- C1 amended: for SSL-requested sites A and B whose primary domains
respectively fail and succeed certificate issuance, in a run that
continues past the failure prompt (auto-confirm), every configuration
rendered for site B carries ssl true and every configuration rendered
for site A carries ssl false, and the run still reaches the Phase-2
configuration test; however, no nginx reload is invoked by the generate
flow. (The hypotheses on headBeforeColon record that the error strings
round-trip through the code's split-on-colon domain recovery, and the
uniqueness hypotheses that one configuration file belongs to each site
name.) -/
theorem c1_ssl_isolation (env : GenEnv) (vhosts : List Vhost) (A B : Vhost)
    (hAmem : A ∈ vhosts) (hA1 : A.isDict = true) (hA2 : A.hasName = true)
    (hA3 : A.domains.isEmpty = false) (hAssl : A.ssl = true)
    (hBmem : B ∈ vhosts) (hB1 : B.isDict = true) (hB2 : B.hasName = true)
    (hB3 : B.domains.isEmpty = false) (hBssl : B.ssl = true)
    (hfailA : env.obtainOk (mkConf A).domain = false)
    (hsuccB : env.obtainOk (mkConf B).domain = true)
    (hnoSsl : env.noSsl = false) (hauto : env.autoConfirm = true)
    (hsplit : ∀ d ∈ sslDomainsOf (parseVhosts vhosts),
      headBeforeColon (d ++ ": " ++ env.obtainErr d) = d)
    (huniqA : ∀ c ∈ parseVhosts vhosts, c.name = A.name → c = mkConf A)
    (huniqB : ∀ c ∈ parseVhosts vhosts, c.name = B.name → c = mkConf B) :
    (renderedFor (generate env vhosts) A.name ≠ [] ∧
      ∀ c ∈ renderedFor (generate env vhosts) A.name,
        c.ssl = false ∧ c.domain = (mkConf A).domain) ∧
    (renderedFor (generate env vhosts) B.name ≠ [] ∧
      ∀ c ∈ renderedFor (generate env vhosts) B.name,
        c.ssl = true ∧ c.domain = (mkConf B).domain) ∧
    (generate env vhosts).testRun = true ∧
    (generate env vhosts).reloadInvoked = false := by
  have hAc : mkConf A ∈ parseVhosts vhosts := mem_parseVhosts hAmem hA1 hA2 hA3
  have hBc : mkConf B ∈ parseVhosts vhosts := mem_parseVhosts hBmem hB1 hB2 hB3
  have hAd : (mkConf A).domain ∈ sslDomainsOf (parseVhosts vhosts) := by
    unfold sslDomainsOf
    exact List.mem_map_of_mem _
      (List.mem_filter.mpr ⟨hAc, by simp [mkConf, hAssl]⟩)
  have hBd : (mkConf B).domain ∈ sslDomainsOf (parseVhosts vhosts) := by
    unfold sslDomainsOf
    exact List.mem_map_of_mem _
      (List.mem_filter.mpr ⟨hBc, by simp [mkConf, hBssl]⟩)
  have hE : (sslDomainsOf (parseVhosts vhosts)).isEmpty = false := by
    rcases h : sslDomainsOf (parseVhosts vhosts) with _ | ⟨x, xs⟩
    · rw [h] at hAd
      cases hAd
    · rfl
  have hc1 : (!(sslDomainsOf (parseVhosts vhosts)).isEmpty && !env.noSsl) = true := by
    rw [hE, hnoSsl]
    rfl
  have hc2 : (!(sslErrorsOf env (sslDomainsOf (parseVhosts vhosts))).isEmpty &&
      !env.autoConfirm && env.stdinTty && !env.userConfirms) = false := by
    rw [hauto]
    simp
  have hgen : generate env vhosts =
      genPhase2 env
        ((parseVhosts vhosts).map
          (downgrade (failedDomainsOf
            (sslErrorsOf env (sslDomainsOf (parseVhosts vhosts))))))
        (sslDomainsOf (parseVhosts vhosts)) true := by
    unfold generate
    rw [hc1, hc2]
    simp
  have hfailedEq := failedDomainsOf_sslErrorsOf env
    (sslDomainsOf (parseVhosts vhosts)) hsplit
  have hAmemF : (mkConf A).domain ∈
      failedDomainsOf (sslErrorsOf env (sslDomainsOf (parseVhosts vhosts))) := by
    rw [hfailedEq]
    exact List.mem_filter.mpr ⟨hAd, by simp [hfailA]⟩
  have hBmemF : (mkConf B).domain ∉
      failedDomainsOf (sslErrorsOf env (sslDomainsOf (parseVhosts vhosts))) := by
    rw [hfailedEq]
    intro hmem
    have := (List.mem_filter.mp hmem).2
    simp [hsuccB] at this
  rw [hgen, renderedFor_genPhase2, renderedFor_genPhase2, genPhase2_testRun,
    genPhase2_reload]
  have hfA : ((fun c : VConf => c.name == A.name) ∘
      downgrade (failedDomainsOf
        (sslErrorsOf env (sslDomainsOf (parseVhosts vhosts))))) =
      fun c : VConf => c.name == A.name := by
    funext c
    simp [Function.comp, downgrade_name]
  have hfB : ((fun c : VConf => c.name == B.name) ∘
      downgrade (failedDomainsOf
        (sslErrorsOf env (sslDomainsOf (parseVhosts vhosts))))) =
      fun c : VConf => c.name == B.name := by
    funext c
    simp [Function.comp, downgrade_name]
  rw [List.filter_map, List.filter_map, hfA, hfB]
  refine ⟨⟨?_, ?_⟩, ⟨?_, ?_⟩, rfl, rfl⟩
  · exact List.ne_nil_of_mem (List.mem_map_of_mem _
      (List.mem_filter.mpr ⟨hAc, by simp [mkConf]⟩))
  · intro c hc
    obtain ⟨c0, hc0, rfl⟩ := List.mem_map.mp hc
    obtain ⟨hc0m, hc0n⟩ := List.mem_filter.mp hc0
    have hname : c0.name = A.name := by simpa using hc0n
    have hc0A : c0 = mkConf A := huniqA c0 hc0m hname
    subst hc0A
    unfold downgrade
    rw [if_pos hAmemF]
    exact ⟨rfl, rfl⟩
  · exact List.ne_nil_of_mem (List.mem_map_of_mem _
      (List.mem_filter.mpr ⟨hBc, by simp [mkConf]⟩))
  · intro c hc
    obtain ⟨c0, hc0, rfl⟩ := List.mem_map.mp hc
    obtain ⟨hc0m, hc0n⟩ := List.mem_filter.mp hc0
    have hname : c0.name = B.name := by simpa using hc0n
    have hc0B : c0 = mkConf B := huniqB c0 hc0m hname
    subst hc0B
    unfold downgrade
    rw [if_neg hBmemF]
    exact ⟨hBssl, rfl⟩

/-- Witness for c1_ssl_isolation at the concrete two-site scenario. -/
theorem c1_ssl_isolation_witness :
    (renderedFor (generate envAB [siteA, siteB]) "a" ≠ [] ∧
      ∀ c ∈ renderedFor (generate envAB [siteA, siteB]) "a",
        c.ssl = false ∧ c.domain = "a.example") ∧
    (renderedFor (generate envAB [siteA, siteB]) "b" ≠ [] ∧
      ∀ c ∈ renderedFor (generate envAB [siteA, siteB]) "b",
        c.ssl = true ∧ c.domain = "b.example") ∧
    (generate envAB [siteA, siteB]).testRun = true ∧
    (generate envAB [siteA, siteB]).reloadInvoked = false :=
  c1_ssl_isolation envAB [siteA, siteB] siteA siteB
    (List.mem_cons_self _ _) rfl rfl rfl rfl
    (List.mem_cons_of_mem _ (List.mem_cons_self _ _)) rfl rfl rfl rfl
    (by decide) (by decide) rfl rfl
    (by decide) (by decide) (by decide)

end NgxMgr
